import Mathlib

/-!
Verification of the fusion-cli build orchestrator specification.

The repository snapshot contains the compiler test suite
(`test/compiler`, here `src/unnamed/part_000`) and the CLI command table
(`src/commands/index.js`).  The orchestrator implementation itself
(`build/compiler`) is not part of the snapshot, so the orchestrator
definitions below are modelled from the specification; the CLI command
table is embedded directly from `src/commands/index.js`.
-/

set_option autoImplicit false

namespace FusionCli

/-- Build environment mode: the two supported values of the `env` option,
`development` and `production`. -/
inductive Environment where
  | development
  | production
deriving DecidableEq

/-- Name of the development environment as it appears in paths. -/
def envName : Environment → String
  | Environment.development => "development"
  | Environment.production => "production"

/-- Build target: one of the three compilation pipelines. -/
inductive Target where
  | server
  | clientModern
  | clientLegacy
deriving DecidableEq

/-- Modelled from the spec: BuildOptions (§3), the immutable options of one
Orchestrator instance. -/
structure BuildOptions where
  environment : Environment
  dir : List String
  forceLegacyBuild : Bool
deriving DecidableEq

/-- Modelled from the spec: the Target Set Resolver (§4.2).  The resolver
source (`build/compiler`) is absent from the snapshot; per the spec it always
includes `server` and `client-modern`, and includes `client-legacy` iff the
environment is production or `forceLegacyBuild` is set. -/
def resolveTargets (opts : BuildOptions) : List Target :=
  [Target.server, Target.clientModern] ++
    (if opts.environment = Environment.production ∨ opts.forceLegacyBuild = true then
      [Target.clientLegacy]
    else [])

/-- JavaScript value occurring as an option default in the command table. -/
inductive JsValue where
  | jsStr (s : String)
  | jsBool (b : Bool)
  | jsNum (n : Int)
  | jsNull
deriving DecidableEq

/-- Declared yargs option type (`type:` field) in the command table. -/
inductive OptionType where
  | typeString
  | typeBoolean
  | typeNumber
deriving DecidableEq

/-- One CLI option from `src/commands/index.js`: its key, its declared
`type` field and its `default` value when present.  The `describe` help text
carries no semantics and is not modelled. -/
structure CliOption where
  name : String
  typ : Option OptionType
  defaultVal : Option JsValue
deriving DecidableEq

/-- One CLI command from `src/commands/index.js`: its key, optional
description and option list. -/
structure CliCommand where
  name : String
  descr : Option String
  options : List CliOption
deriving DecidableEq

/-- A Jest pass-through option from the generated `jestOptionsDescriptions`
map: declared boolean, no default (`src/commands/index.js` lines 6-14). -/
def jestOptionDescription (arg : String) : CliOption :=
  { name := arg, typ := some OptionType.typeBoolean, defaultVal := none }

/-- The exported CLI command table of `src/commands/index.js` (lines 16-160),
parametrised by `allowedJestOptions`, which is imported there from a module
outside the snapshot. -/
def commandTable (allowedJestOptions : List String) : List CliCommand :=
  [ { name := "build"
    , descr := some "Build your app"
    , options :=
        [ { name := "dir", typ := some OptionType.typeString,
            defaultVal := some (JsValue.jsStr ".") }
        , { name := "production", typ := some OptionType.typeBoolean,
            defaultVal := some (JsValue.jsBool false) }
        , { name := "log-level", typ := some OptionType.typeString,
            defaultVal := some (JsValue.jsStr "info") } ] }
  , { name := "dev"
    , descr := some "Run your app in development"
    , options :=
        [ { name := "dir", typ := some OptionType.typeString,
            defaultVal := some (JsValue.jsStr ".") }
        , { name := "debug", typ := some OptionType.typeBoolean,
            defaultVal := some (JsValue.jsBool false) }
        , { name := "port", typ := some OptionType.typeNumber,
            defaultVal := some (JsValue.jsNum 3000) }
        , { name := "open", typ := some OptionType.typeBoolean,
            defaultVal := some (JsValue.jsBool true) }
        , { name := "hmr", typ := some OptionType.typeBoolean,
            defaultVal := some (JsValue.jsBool true) }
        , { name := "forceLegacyBuild", typ := some OptionType.typeBoolean,
            defaultVal := some (JsValue.jsBool false) }
        , { name := "log-level", typ := some OptionType.typeString,
            defaultVal := some (JsValue.jsStr "info") } ] }
  , { name := "profile"
    , descr := some "Profile your application"
    , options :=
        [ { name := "dir", typ := some OptionType.typeString,
            defaultVal := some (JsValue.jsStr ".") }
        , { name := "environment", typ := some OptionType.typeString,
            defaultVal := some (JsValue.jsStr "production") }
        , { name := "port", typ := some OptionType.typeNumber,
            defaultVal := some (JsValue.jsStr "4000") } ] }
  , { name := "start"
    , descr := some "Run your app"
    , options :=
        [ { name := "debug", typ := some OptionType.typeBoolean,
            defaultVal := some (JsValue.jsBool false) }
        , { name := "port", typ := some OptionType.typeNumber,
            defaultVal := none }
        , { name := "dir", typ := some OptionType.typeString,
            defaultVal := some (JsValue.jsStr ".") }
        , { name := "environment", typ := some OptionType.typeString,
            defaultVal := none } ] }
  , { name := "test-app", descr := none, options := [] }
  , { name := "test"
    , descr := some "Run browser tests, using Jest"
    , options :=
        [ { name := "dir", typ := some OptionType.typeString,
            defaultVal := some (JsValue.jsStr ".") }
        , { name := "debug", typ := some OptionType.typeBoolean,
            defaultVal := some (JsValue.jsBool false) }
        , { name := "match", typ := some OptionType.typeString,
            defaultVal := some JsValue.jsNull }
        , { name := "env", typ := some OptionType.typeString,
            defaultVal := some (JsValue.jsStr "jsdom,node") }
        , { name := "testFolder", typ := some OptionType.typeString,
            defaultVal := some (JsValue.jsStr "__tests__") }
        , { name := "configPath", typ := some OptionType.typeString,
            defaultVal := some
              (JsValue.jsStr "./node_modules/fusion-cli/build/jest/jest-config.js") } ]
          ++ allowedJestOptions.map jestOptionDescription } ]

/-- Whether a default value has the runtime type declared by the option
(`number` ↦ numeric, `boolean` ↦ boolean, `string` ↦ string or null). -/
def defaultMatchesType : OptionType → JsValue → Bool
  | OptionType.typeNumber, JsValue.jsNum _ => true
  | OptionType.typeBoolean, JsValue.jsBool _ => true
  | OptionType.typeString, JsValue.jsStr _ => true
  | OptionType.typeString, JsValue.jsNull => true
  | _, _ => false

/-- An option is well typed when, if it carries both a declared type and a
default, the default matches the declared type. -/
def optionWellTyped (o : CliOption) : Bool :=
  match o.typ, o.defaultVal with
  | some t, some v => defaultMatchesType t v
  | _, _ => true

/-- Whether every option of every command in the table is well typed. -/
def commandTableWellTyped (allowedJestOptions : List String) : Bool :=
  (commandTable allowedJestOptions).all (fun c => c.options.all optionWellTyped)

/-- A filesystem path, modelled as its list of segments. -/
abbrev FsPath := List String

/-- Modelled from the spec: the output directory of one environment,
`<root>/<build-cache>/dist/<environment>` (§6); the tests use
`<dir>/.fusion/dist/<env>`. -/
def outputDir (dir : FsPath) (env : Environment) : FsPath :=
  dir ++ [".fusion", "dist", envName env]

/-- Modelled from the spec: `clean()` recursively removes the output
directory of the current environment (§4.4) — every path under it is dropped
from the filesystem, others are kept. -/
def clean (fs : List FsPath) (dir : FsPath) (env : Environment) : List FsPath :=
  fs.filter (fun p => !((outputDir dir env).isPrefixOf p))

/-- Whether the mandatory server entry file `src/main.js` exists under the
project directory (the file probed by the `throws if missing src/main.js`
test). -/
def hasServerEntry (fs : List FsPath) (dir : FsPath) : Bool :=
  fs.contains (dir ++ ["src", "main.js"])

/-- An orchestrator instance, holding its immutable options. -/
structure Compiler where
  opts : BuildOptions
deriving DecidableEq

/-- Construction-time error of the orchestrator. -/
inductive CompilerError where
  | missingEntry (dir : FsPath)
deriving DecidableEq

/-- Modelled from the spec: Orchestrator construction (§4.4).  The
constructor source (`build/compiler`) is absent from the snapshot; per the
spec it fails synchronously with `MissingEntryError` when the mandatory
server entry file is missing, before any I/O side effect, so the filesystem
component of the result is always returned unchanged. -/
def mkCompiler (fs : List FsPath) (opts : BuildOptions) :
    Except CompilerError Compiler × List FsPath :=
  if hasServerEntry fs opts.dir then (Except.ok { opts := opts }, fs)
  else (Except.error (CompilerError.missingEntry opts.dir), fs)

/-- Name of a compile-time global constant (§6: browser-flag, node-flag,
dev-flag). -/
inductive GlobalName where
  | browserFlag
  | nodeFlag
  | devFlag
deriving DecidableEq

/-- The three global constant bindings for one target/environment pair. -/
structure Globals where
  browser : Bool
  node : Bool
  dev : Bool
deriving DecidableEq

/-- Whether a target is a client target. -/
def isClient : Target → Bool
  | Target.server => false
  | Target.clientModern => true
  | Target.clientLegacy => true

/-- Whether the environment is development. -/
def isDev : Environment → Bool
  | Environment.development => true
  | Environment.production => false

/-- Modelled from the spec: the Config Builder's global constant table
(§4.1): `__BROWSER__` is true only for client targets, `__NODE__` is its
negation, and `__DEV__` is true exactly in development. -/
def entryGlobals (t : Target) (env : Environment) : Globals :=
  { browser := isClient t, node := !(isClient t), dev := isDev env }

/-- Abstract syntax of bundled code, restricted to the constructs the claims
mention: boolean literals, string literals, global-constant references,
async and plain function abstractions, and sequencing. -/
inductive Expr where
  | lit (b : Bool)
  | str (s : String)
  | globalRef (g : GlobalName)
  | asyncFn (body : Expr)
  | fn (body : Expr)
  | seq (a b : Expr)
deriving DecidableEq

/-- Modelled from the spec: compile-time substitution of the three global
constants by literal booleans (§4.1 and the design note on source-text
substitution). -/
def substGlobals (g : Globals) : Expr → Expr
  | Expr.lit b => Expr.lit b
  | Expr.str s => Expr.str s
  | Expr.globalRef GlobalName.browserFlag => Expr.lit g.browser
  | Expr.globalRef GlobalName.nodeFlag => Expr.lit g.node
  | Expr.globalRef GlobalName.devFlag => Expr.lit g.dev
  | Expr.asyncFn e => Expr.asyncFn (substGlobals g e)
  | Expr.fn e => Expr.fn (substGlobals g e)
  | Expr.seq a b => Expr.seq (substGlobals g a) (substGlobals g b)

/-- Whether any global-constant reference remains in an expression. -/
def hasGlobalRef : Expr → Bool
  | Expr.lit _ => false
  | Expr.str _ => false
  | Expr.globalRef _ => true
  | Expr.asyncFn e => hasGlobalRef e
  | Expr.fn e => hasGlobalRef e
  | Expr.seq a b => hasGlobalRef a || hasGlobalRef b

/-- Whether any native async-function syntax occurs in an expression. -/
def hasAsync : Expr → Bool
  | Expr.lit _ => false
  | Expr.str _ => false
  | Expr.globalRef _ => false
  | Expr.asyncFn _ => true
  | Expr.fn e => hasAsync e
  | Expr.seq a b => hasAsync a || hasAsync b

/-- Modelled from the spec: the legacy down-level transform (§4.1): native
async-function syntax is rewritten into plain functions (state-machine
encoding), recursively through the whole module. -/
def downlevelAsync : Expr → Expr
  | Expr.asyncFn e => Expr.fn (downlevelAsync e)
  | Expr.fn e => Expr.fn (downlevelAsync e)
  | Expr.seq a b => Expr.seq (downlevelAsync a) (downlevelAsync b)
  | Expr.lit b => Expr.lit b
  | Expr.str s => Expr.str s
  | Expr.globalRef g => Expr.globalRef g

/-- Transform profile of a target (§3). -/
inductive TransformProfile where
  | modern
  | legacy
deriving DecidableEq

/-- Modelled from the spec: legacy targets down-level language features,
modern targets skip that transform (§4.1). -/
def applyProfile : TransformProfile → Expr → Expr
  | TransformProfile.legacy, e => downlevelAsync e
  | TransformProfile.modern, e => e

/-- Transform profile per target: only `client-legacy` uses legacy. -/
def targetProfile : Target → TransformProfile
  | Target.clientLegacy => TransformProfile.legacy
  | Target.server => TransformProfile.modern
  | Target.clientModern => TransformProfile.modern

/-- A module in the bundle: its originating package (`none` for project
source) and its code. -/
structure SourceModule where
  pkg : Option String
  code : Expr
deriving DecidableEq

/-- Modelled from the spec: the configuration extension point (§4.1): a
project-supplied transform applies to project source and to any dependency
package not listed in the exclusion denylist; denylisted modules pass
through unaltered. -/
def applyCustomTransform (t : Expr → Expr) (denylist : List String)
    (m : SourceModule) : SourceModule :=
  match m.pkg with
  | none => { pkg := none, code := t m.code }
  | some p => if p ∈ denylist then m else { pkg := some p, code := t m.code }

/-- Modelled from the spec: per-module compilation for one target — the
custom transform stage followed by the target's transform profile. -/
def compileModule (tgt : Target) (t : Expr → Expr) (denylist : List String)
    (m : SourceModule) : SourceModule :=
  let m2 := applyCustomTransform t denylist m
  { pkg := m2.pkg, code := applyProfile (targetProfile tgt) m2.code }

/-- One compiler diagnostic: severity and message. -/
structure Diagnostic where
  severity : String
  message : String
deriving DecidableEq

/-- Modelled from the spec: BuildResult (§3): the target, success flag,
ordered diagnostics and emitted files of one completed compilation. -/
structure BuildResult where
  target : Target
  success : Bool
  diagnostics : List Diagnostic
  emittedFiles : List FsPath
deriving DecidableEq

/-- Modelled from the spec: the aggregate error signal (§4.4):
`aggregateStats.hasErrors()` is true iff some per-target BuildResult has
`success = false`. -/
def hasErrors (results : List BuildResult) : Bool :=
  results.any (fun r => !r.success)

/-- Modelled from the spec: the fan-in slot map (§4.4): a fresh completion
overwrites the slot of its own target, superseding the stale result. -/
def updateSlot (slots : List BuildResult) (r : BuildResult) : List BuildResult :=
  r :: slots.filter (fun s => !(s.target == r.target))

/-- The slot map after processing a sequence of completion events. -/
def slotsAfter (events : List BuildResult) : List BuildResult :=
  events.foldl updateSlot []

/-- Modelled from the spec: the first wave is reported only once every
active target's slot holds a BuildResult (§4.4). -/
def waveFires (active : List Target) (events : List BuildResult) : Bool :=
  active.all (fun t => (slotsAfter events).any (fun s => s.target == t))

/-- A server entry module as compiled: whether its source has a default
export, and its code. -/
structure EntryModule where
  hasDefaultExport : Bool
  code : Expr
deriving DecidableEq

/-- The stable server entry artifact path inside the environment's output
directory (`server/server-main.js`, as probed by the tests). -/
def serverMainPath (dir : FsPath) (env : Environment) : FsPath :=
  outputDir dir env ++ ["server", "server-main.js"]

/-- Modelled from the spec: compiling the server entry (§4.3, §7): the
compiler does not check the presence of a default export, so the module
compiles with success, empty diagnostics and the entry artifact emitted,
its globals substituted. -/
def compileServerEntry (dir : FsPath) (env : Environment) (m : EntryModule) :
    BuildResult × Expr :=
  (BuildResult.mk Target.server true [] [serverMainPath dir env],
    substGlobals (entryGlobals Target.server env) m.code)

/-- A handle on a started server (its bound port). -/
structure ServerHandle where
  port : Nat
deriving DecidableEq

/-- Runtime failure of the produced artifact. -/
inductive RuntimeError where
  | missingDefaultExport
deriving DecidableEq

/-- Modelled from the spec: the runtime `start({port})` contract of the
produced server entry (§6, §7): it rejects when the entry module has no
default export, otherwise resolves with a listening server handle. -/
def startServer (m : EntryModule) (port : Nat) : Except RuntimeError ServerHandle :=
  if m.hasDefaultExport then Except.ok (ServerHandle.mk port)
  else Except.error RuntimeError.missingDefaultExport

/-- An emitted client asset: logical name and content bytes. -/
structure Asset where
  name : String
  bytes : List Nat
deriving DecidableEq

/-- Modelled from the spec: the content hash of the Asset Finalizer (§4.5),
a pure function of the asset bytes alone (a 32-bit fold, byte values reduced
mod 256). -/
def contentHash (bytes : List Nat) : Nat :=
  bytes.foldl (fun h b => (h * 33 + b % 256) % 2 ^ 32) 5381

/-- The hash-qualified output filename of an asset. -/
def hashedFileName (a : Asset) : String :=
  a.name ++ "-" ++ toString (contentHash a.bytes) ++ ".js"

/-- One manifest entry: logical name, hashed filename and hash. -/
structure ManifestEntry where
  logical : String
  hashed : String
  hash : Nat
deriving DecidableEq

/-- Ambient build context that could vary between two otherwise identical
runs: wall-clock timestamp and build id. -/
structure BuildContext where
  timestamp : Nat
  buildId : Nat
deriving DecidableEq

/-- Modelled from the spec: the Asset Finalizer's manifest construction
(§4.5): one entry per asset, derived from the asset name and bytes alone —
the ambient build context does not enter. -/
def finalize (_ctx : BuildContext) (assets : List Asset) : List ManifestEntry :=
  assets.map (fun a =>
    ManifestEntry.mk a.name (hashedFileName a) (contentHash a.bytes))

/-- Claim C2: the resolved target set always includes `server` and
`client-modern`, and includes `client-legacy` iff the environment is
production or `forceLegacyBuild` is set. -/
theorem resolveTargets_characterisation (opts : BuildOptions) :
    Target.server ∈ resolveTargets opts ∧
    Target.clientModern ∈ resolveTargets opts ∧
    (Target.clientLegacy ∈ resolveTargets opts ↔
      (opts.environment = Environment.production ∨ opts.forceLegacyBuild = true)) := by
  unfold resolveTargets
  by_cases h : opts.environment = Environment.production ∨ opts.forceLegacyBuild = true
  · simp [h]
  · simp [h]

/-- Claim C10: the exported command table contains an option (the `profile`
command's `port`) declared with `type: number` whose default is the string
"4000", so the table is not well typed. -/
theorem commandTable_profile_port_mismatch :
    commandTableWellTyped [] = false ∧
    ((commandTable []).any (fun c =>
        c.name == "profile" && c.options.any (fun o =>
          o.name == "port" && !(optionWellTyped o)))) = true := by
  constructor
  · rfl
  · rfl

/-- Two distinct environments have output directories that are never both
prefixes of a common path, since the environment-name segment differs. -/
theorem outputDir_prefix_unique (dir p : FsPath) (e1 e2 : Environment)
    (h1 : outputDir dir e1 <+: p) (h2 : outputDir dir e2 <+: p) : e1 = e2 := by
  have hlen : (outputDir dir e1).length = (outputDir dir e2).length := by
    simp [outputDir]
  have hcmp := List.prefix_or_prefix_of_prefix h1 h2
  have heq : outputDir dir e1 = outputDir dir e2 := by
    rcases hcmp with h | h
    · exact h.eq_of_length hlen
    · exact (h.eq_of_length hlen.symm).symm
  have hname : envName e1 = envName e2 := by
    have htail := List.append_cancel_left heq
    simpa using htail
  cases e1 <;> cases e2 <;> simp_all [envName]

/-- Claim C1: constructing the orchestrator over a filesystem whose project
directory lacks the mandatory server entry file fails synchronously with
`MissingEntryError`, for every environment, and leaves the filesystem
untouched (no output directory is created, no I/O side effect occurs). -/
theorem mkCompiler_missingEntry_sync (fs : List FsPath) (opts : BuildOptions)
    (h : hasServerEntry fs opts.dir = false) :
    (mkCompiler fs opts).1 = Except.error (CompilerError.missingEntry opts.dir) ∧
    (mkCompiler fs opts).2 = fs := by
  unfold mkCompiler
  simp [h]

/-- Witness for C1: a concrete empty filesystem and development options. -/
theorem mkCompiler_missingEntry_sync_witness :
    hasServerEntry [] ["app"] = false ∧
    (mkCompiler [] (BuildOptions.mk Environment.development ["app"] false)).1 =
      Except.error (CompilerError.missingEntry ["app"]) ∧
    (mkCompiler [] (BuildOptions.mk Environment.development ["app"] false)).2 = [] :=
  ⟨rfl, mkCompiler_missingEntry_sync [] (BuildOptions.mk Environment.development ["app"] false) rfl⟩

/-- Claim C8: `clean()` is idempotent, the environment's output directory is
absent after each call (also when nothing was there to begin with), and paths
under a different environment's output directory are untouched. -/
theorem clean_idempotent_spec (fs : List FsPath) (dir : FsPath) (env env2 : Environment) :
    clean (clean fs dir env) dir env = clean fs dir env ∧
    (∀ p, p ∈ clean fs dir env → (outputDir dir env).isPrefixOf p = false) ∧
    (env2 ≠ env → ∀ p, p ∈ fs → (outputDir dir env2).isPrefixOf p = true →
      p ∈ clean fs dir env) := by
  have habsent : ∀ p, p ∈ clean fs dir env → (outputDir dir env).isPrefixOf p = false := by
    intro p hp
    have hmem := List.mem_filter.mp hp
    simpa using hmem.2
  refine ⟨?_, habsent, ?_⟩
  · apply List.filter_eq_self.mpr
    intro p hp
    simpa using habsent p hp
  · intro hne p hp hpre
    apply List.mem_filter.mpr
    refine ⟨hp, ?_⟩
    simp only [Bool.not_eq_true']
    by_contra hcon
    have hpre1 : outputDir dir env <+: p := by
      rw [← List.isPrefixOf_iff_prefix]
      simpa using hcon
    have hpre2 : outputDir dir env2 <+: p :=
      List.isPrefixOf_iff_prefix.mp hpre
    exact hne (outputDir_prefix_unique dir p env2 env hpre2 hpre1)

/-- Witness for C8: cleaning the development output leaves a concrete
production artifact in place. -/
theorem clean_idempotent_spec_witness :
    (Environment.production ≠ Environment.development ∧
      ["app", ".fusion", "dist", "production", "server", "server-main.js"] ∈
        ([["app", ".fusion", "dist", "production", "server", "server-main.js"]] : List FsPath) ∧
      (outputDir ["app"] Environment.production).isPrefixOf
        ["app", ".fusion", "dist", "production", "server", "server-main.js"] = true) ∧
    ["app", ".fusion", "dist", "production", "server", "server-main.js"] ∈
      clean [["app", ".fusion", "dist", "production", "server", "server-main.js"]]
        ["app"] Environment.development :=
  ⟨⟨by decide, by decide, by decide⟩,
    (clean_idempotent_spec
        [["app", ".fusion", "dist", "production", "server", "server-main.js"]]
        ["app"] Environment.development Environment.production).2.2
      (by decide)
      ["app", ".fusion", "dist", "production", "server", "server-main.js"]
      (by decide) (by decide)⟩

/-- Down-levelling removes every occurrence of async-function syntax. -/
theorem hasAsync_downlevelAsync (e : Expr) : hasAsync (downlevelAsync e) = false := by
  induction e with
  | lit b => rfl
  | str s => rfl
  | globalRef g => rfl
  | asyncFn e ih => simpa [downlevelAsync, hasAsync] using ih
  | fn e ih => simpa [downlevelAsync, hasAsync] using ih
  | seq a b iha ihb => simp [downlevelAsync, hasAsync, iha, ihb]

/-- Claim C3: after global substitution no global-constant reference remains
(the constants are statically known literals), and the substituted values
are: `__BROWSER__` true and `__NODE__` false for client targets,
`__BROWSER__` false and `__NODE__` true for the server target in every
environment, and `__DEV__` true exactly when the environment is
development. -/
theorem entryGlobals_spec (t : Target) (env : Environment) (e : Expr) :
    hasGlobalRef (substGlobals (entryGlobals t env) e) = false ∧
    (isClient t = true →
      (entryGlobals t env).browser = true ∧ (entryGlobals t env).node = false) ∧
    (entryGlobals Target.server env).browser = false ∧
    (entryGlobals Target.server env).node = true ∧
    ((entryGlobals t env).dev = true ↔ env = Environment.development) := by
  refine ⟨?_, ?_, rfl, rfl, ?_⟩
  · induction e with
    | lit b => rfl
    | str s => rfl
    | globalRef g => cases g <;> rfl
    | asyncFn e ih => simpa [substGlobals, hasGlobalRef] using ih
    | fn e ih => simpa [substGlobals, hasGlobalRef] using ih
    | seq a b iha ihb => simp [substGlobals, hasGlobalRef, iha, ihb]
  · intro h
    cases t <;> simp_all [entryGlobals, isClient]
  · cases env <;> simp [entryGlobals, isDev]

/-- Witness for C3: the client-modern target in development. -/
theorem entryGlobals_spec_witness :
    isClient Target.clientModern = true ∧
    ((entryGlobals Target.clientModern Environment.development).browser = true ∧
      (entryGlobals Target.clientModern Environment.development).node = false) :=
  ⟨by decide,
    (entryGlobals_spec Target.clientModern Environment.development
        (Expr.globalRef GlobalName.browserFlag)).2.1 (by decide)⟩

/-- Claim C6: for every bundle compiled with the legacy transform profile —
project modules and dependency modules alike — no native async-function
syntax remains in the emitted code. -/
theorem legacyProfile_no_async (modules : List Expr) :
    ∀ e, e ∈ modules.map (applyProfile TransformProfile.legacy) →
      hasAsync e = false := by
  intro e he
  rcases List.mem_map.mp he with ⟨src, _, rfl⟩
  simpa [applyProfile] using hasAsync_downlevelAsync src

/-- Witness for C6: a one-module bundle holding an async function. -/
theorem legacyProfile_no_async_witness :
    applyProfile TransformProfile.legacy (Expr.asyncFn (Expr.str "fixturepkg_string")) ∈
      [Expr.asyncFn (Expr.str "fixturepkg_string")].map
        (applyProfile TransformProfile.legacy) ∧
    hasAsync (applyProfile TransformProfile.legacy
      (Expr.asyncFn (Expr.str "fixturepkg_string"))) = false :=
  ⟨by decide,
    legacyProfile_no_async [Expr.asyncFn (Expr.str "fixturepkg_string")] _ (by decide)⟩

/-- Claim C7: a configured project-level custom transform reaches the output
of project source and of non-denylisted dependency packages, in both the
server and the client bundles, while modules of denylisted packages pass
through the custom transform stage unaltered. -/
theorem customTransform_denylist_spec (t : Expr → Expr) (denylist : List String)
    (m : SourceModule) :
    (m.pkg = none →
      (compileModule Target.server t denylist m).code = t m.code ∧
      (compileModule Target.clientModern t denylist m).code = t m.code) ∧
    (∀ p, m.pkg = some p → p ∉ denylist →
      (compileModule Target.server t denylist m).code = t m.code ∧
      (compileModule Target.clientModern t denylist m).code = t m.code) ∧
    (∀ p, m.pkg = some p → p ∈ denylist →
      (compileModule Target.server t denylist m).code = m.code ∧
      (compileModule Target.clientModern t denylist m).code = m.code ∧
      applyCustomTransform t denylist m = m) := by
  refine ⟨?_, ?_, ?_⟩
  · intro h
    constructor <;>
      simp [compileModule, applyCustomTransform, targetProfile, applyProfile, h]
  · intro p hp hnp
    constructor <;>
      simp [compileModule, applyCustomTransform, targetProfile, applyProfile, hp, hnp]
  · intro p hp hin
    refine ⟨?_, ?_, ?_⟩ <;>
      simp [compileModule, applyCustomTransform, targetProfile, applyProfile, hp, hin]

/-- Witness for C7: a transform appending a marker string, a denylisted
package left alone and a default-included package transformed. -/
theorem customTransform_denylist_spec_witness :
    ((SourceModule.mk (some "fixturepkg") (Expr.str "fixturepkg_string")).pkg =
        some "fixturepkg" ∧
      "fixturepkg" ∉ ["helloworld"]) ∧
    ((compileModule Target.server
        (fun e => Expr.seq e (Expr.str "transformed_custom_babel")) ["helloworld"]
        (SourceModule.mk (some "fixturepkg") (Expr.str "fixturepkg_string"))).code =
      Expr.seq (Expr.str "fixturepkg_string") (Expr.str "transformed_custom_babel") ∧
    (compileModule Target.clientModern
        (fun e => Expr.seq e (Expr.str "transformed_custom_babel")) ["helloworld"]
        (SourceModule.mk (some "fixturepkg") (Expr.str "fixturepkg_string"))).code =
      Expr.seq (Expr.str "fixturepkg_string") (Expr.str "transformed_custom_babel")) :=
  ⟨⟨rfl, by decide⟩,
    (customTransform_denylist_spec
        (fun e => Expr.seq e (Expr.str "transformed_custom_babel")) ["helloworld"]
        (SourceModule.mk (some "fixturepkg") (Expr.str "fixturepkg_string"))).2.1
      "fixturepkg" rfl (by decide)⟩

/-- Filtering out results of one target does not change whether a result for
a different target is present. -/
theorem any_filter_ne (l : List BuildResult) (a tt : Target)
    (h : (a == tt) = false) :
    (l.filter (fun s => !(s.target == a))).any (fun s => s.target == tt) =
      l.any (fun s => s.target == tt) := by
  induction l with
  | nil => rfl
  | cons s ss ih =>
    by_cases hs : s.target = a
    · have h1 : (!(s.target == a)) = false := by simp [hs]
      have h2 : (s.target == tt) = false := by rw [hs]; exact h
      simp [List.filter_cons, h1, h2, ih]
    · have h1 : (!(s.target == a)) = true := by simp [hs]
      simp [List.filter_cons, h1, ih]

/-- A slot update leaves a result for target `t` present iff the new result
is for `t` or one was already present. -/
theorem any_target_updateSlot (slots : List BuildResult) (r : BuildResult)
    (t : Target) :
    (updateSlot slots r).any (fun s => s.target == t) =
      ((r.target == t) || slots.any (fun s => s.target == t)) := by
  unfold updateSlot
  by_cases h : r.target = t
  · simp [h]
  · have hb : (r.target == t) = false := by simpa using h
    simp only [List.any_cons, hb, Bool.false_or]
    exact any_filter_ne slots r.target t hb

/-- After folding completion events into the slot map, a result for target
`t` is present iff the initial map had one or some event was for `t`. -/
theorem any_target_foldl (events : List BuildResult) (init : List BuildResult)
    (t : Target) :
    ((events.foldl updateSlot init).any (fun s => s.target == t)) =
      (init.any (fun s => s.target == t) || events.any (fun e => e.target == t)) := by
  induction events generalizing init with
  | nil => simp
  | cons e es ih =>
    rw [List.foldl_cons, ih, any_target_updateSlot, List.any_cons]
    cases e.target == t <;> cases init.any (fun s => s.target == t) <;> simp

/-- Every result in the folded slot map comes from the initial map or from
the event sequence. -/
theorem mem_foldl_updateSlot (events : List BuildResult) (init : List BuildResult)
    (r : BuildResult) (h : r ∈ events.foldl updateSlot init) :
    r ∈ init ∨ r ∈ events := by
  induction events generalizing init with
  | nil => exact Or.inl h
  | cons e es ih =>
    rw [List.foldl_cons] at h
    rcases ih (updateSlot init e) h with h1 | h1
    · unfold updateSlot at h1
      rcases List.mem_cons.mp h1 with h2 | h2
      · exact Or.inr (by simp [h2])
      · exact Or.inl (List.mem_of_mem_filter h2)
    · exact Or.inr (List.mem_cons_of_mem _ h1)

/-- Claim C4: on the converged slot map, `hasErrors` is true iff some
target's latest BuildResult has `success = false` (one failing target is
reflected regardless of the other slots), every slot holds an actual
completion, and the first wave fires iff every active target has completed
at least once. -/
theorem aggregate_fanin_spec (active : List Target) (events : List BuildResult) :
    (hasErrors (slotsAfter events) = true ↔
      ∃ r, r ∈ slotsAfter events ∧ r.success = false) ∧
    (∀ r, r ∈ slotsAfter events → r.success = false →
      hasErrors (slotsAfter events) = true) ∧
    (∀ r, r ∈ slotsAfter events → r ∈ events) ∧
    (waveFires active events = true ↔
      ∀ t, t ∈ active → ∃ e, e ∈ events ∧ e.target = t) := by
  have h1 : hasErrors (slotsAfter events) = true ↔
      ∃ r, r ∈ slotsAfter events ∧ r.success = false := by
    unfold hasErrors
    rw [List.any_eq_true]
    constructor
    · rintro ⟨r, hr, hs⟩
      exact ⟨r, hr, by simpa using hs⟩
    · rintro ⟨r, hr, hs⟩
      exact ⟨r, hr, by simp [hs]⟩
  refine ⟨h1, ?_, ?_, ?_⟩
  · intro r hr hs
    exact h1.mpr ⟨r, hr, hs⟩
  · intro r hr
    rcases mem_foldl_updateSlot events [] r hr with h | h
    · exact absurd h (by simp)
    · exact h
  · unfold waveFires slotsAfter
    rw [List.all_eq_true]
    constructor
    · intro h t ht
      have h5 := h t ht
      rw [any_target_foldl, List.any_nil, Bool.false_or, List.any_eq_true] at h5
      rcases h5 with ⟨e, he, heq⟩
      exact ⟨e, he, by simpa using heq⟩
    · intro h t ht
      rw [any_target_foldl, List.any_nil, Bool.false_or, List.any_eq_true]
      rcases h t ht with ⟨e, he, heq⟩
      exact ⟨e, he, by simp [heq]⟩

/-- Witness for C4: a single failed server completion makes the aggregate
report errors. -/
theorem aggregate_fanin_spec_witness :
    (BuildResult.mk Target.server false [] [] ∈
        slotsAfter [BuildResult.mk Target.server false [] []] ∧
      (BuildResult.mk Target.server false [] []).success = false) ∧
    hasErrors (slotsAfter [BuildResult.mk Target.server false [] []]) = true :=
  ⟨⟨by decide, rfl⟩,
    (aggregate_fanin_spec [Target.server]
        [BuildResult.mk Target.server false [] []]).2.1
      (BuildResult.mk Target.server false [] []) (by decide) rfl⟩

/-- Claim C5: an entry module without a default export still compiles with
`success = true`, empty diagnostics and the entry artifact emitted, but the
runtime `start({port})` of the produced entry rejects with the
missing-default-export error instead of returning a server handle. -/
theorem missingDefaultExport_spec (dir : FsPath) (env : Environment)
    (m : EntryModule) (port : Nat) (h : m.hasDefaultExport = false) :
    (compileServerEntry dir env m).1.success = true ∧
    (compileServerEntry dir env m).1.diagnostics = [] ∧
    (compileServerEntry dir env m).1.emittedFiles = [serverMainPath dir env] ∧
    startServer m port = Except.error RuntimeError.missingDefaultExport := by
  refine ⟨rfl, rfl, rfl, ?_⟩
  unfold startServer
  simp [h]

/-- Witness for C5: the `empty` fixture module, in development. -/
theorem missingDefaultExport_spec_witness :
    (EntryModule.mk false (Expr.str "empty")).hasDefaultExport = false ∧
    ((compileServerEntry ["app"] Environment.development
        (EntryModule.mk false (Expr.str "empty"))).1.success = true ∧
      (compileServerEntry ["app"] Environment.development
        (EntryModule.mk false (Expr.str "empty"))).1.diagnostics = [] ∧
      (compileServerEntry ["app"] Environment.development
        (EntryModule.mk false (Expr.str "empty"))).1.emittedFiles =
        [serverMainPath ["app"] Environment.development] ∧
      startServer (EntryModule.mk false (Expr.str "empty")) 3000 =
        Except.error RuntimeError.missingDefaultExport) :=
  ⟨rfl,
    missingDefaultExport_spec ["app"] Environment.development
      (EntryModule.mk false (Expr.str "empty")) 3000 rfl⟩

/-- Claim C9: the Asset Finalizer is deterministic: the manifest depends on
the assets alone — two runs over identical source bytes under different
ambient build contexts give the identical content hash, identical hashed
output filename and identical manifest entries. -/
theorem finalize_deterministic (ctx1 ctx2 : BuildContext) (assets : List Asset)
    (a1 a2 : Asset) (hb : a1.bytes = a2.bytes) :
    finalize ctx1 assets = finalize ctx2 assets ∧
    contentHash a1.bytes = contentHash a2.bytes ∧
    (a1.name = a2.name → hashedFileName a1 = hashedFileName a2) := by
  refine ⟨rfl, by rw [hb], ?_⟩
  intro hn
  unfold hashedFileName
  rw [hb, hn]

/-- Witness for C9: two runs over the same client-main bytes under distinct
build contexts. -/
theorem finalize_deterministic_witness :
    ((Asset.mk "client-main" [104, 105]).bytes =
        (Asset.mk "client-main" [104, 105]).bytes ∧
      (Asset.mk "client-main" [104, 105]).name =
        (Asset.mk "client-main" [104, 105]).name) ∧
    (finalize (BuildContext.mk 0 0) [Asset.mk "client-main" [104, 105]] =
        finalize (BuildContext.mk 1 7) [Asset.mk "client-main" [104, 105]] ∧
      hashedFileName (Asset.mk "client-main" [104, 105]) =
        hashedFileName (Asset.mk "client-main" [104, 105])) :=
  ⟨⟨rfl, rfl⟩,
    (finalize_deterministic (BuildContext.mk 0 0) (BuildContext.mk 1 7)
        [Asset.mk "client-main" [104, 105]]
        (Asset.mk "client-main" [104, 105])
        (Asset.mk "client-main" [104, 105]) rfl).1,
    (finalize_deterministic (BuildContext.mk 0 0) (BuildContext.mk 1 7)
        [Asset.mk "client-main" [104, 105]]
        (Asset.mk "client-main" [104, 105])
        (Asset.mk "client-main" [104, 105]) rfl).2.2 rfl⟩

end FusionCli
